import Mathlib

/-!
Verification development for the TikTok/Instagram stat-extraction engine
(`src/scraper`): a shallow embedding of the count parser, the platform
classifier, the structured-data extractors, the HTML fallback extractors,
the scrape orchestrators and the rate limiter, with theorems settling the
specification's claims about them.

Modelling conventions:
* Python's `None` is `Option.none`; JSON values are the `Json` inductive.
* Python machine floats are modelled as exact decimals (`mant * 10 ^ exp`)
  plus the special values `inf`, `neginf`, `nan`; binary rounding is
  abstracted away (all numbers appearing in the claims are exactly
  representable).  Underscore digit separators accepted by Python's `float`
  are not modelled.
* Fallible Python operations return `Except Unit _`; the single error value
  stands for the raised exception (`TypeError`/`KeyError`/`AttributeError`),
  which the source catches wholesale with `except Exception`.
* `\w` in the URL regexes is modelled as ASCII `[A-Za-z0-9_]`.
-/

namespace StatScraper

/-- JSON values, the payloads captured by the response interceptor. -/
inductive Json where
  | null
  | bool (b : Bool)
  | num (q : ℚ)
  | str (s : String)
  | arr (elems : List Json)
  | obj (fields : List (String × Json))

/-- Python truthiness of a JSON value (`if x:`). -/
def truthy : Json → Bool
  | .null => false
  | .bool b => b
  | .num q => q != 0
  | .str s => s != ""
  | .arr l => !l.isEmpty
  | .obj l => !l.isEmpty

/-- First binding of a key in a JSON object's field list. -/
def lookupKey : List (String × Json) → String → Option Json
  | [], _ => none
  | (k, v) :: rest, key => if k = key then some v else lookupKey rest key

/-- Does `needle` occur as a contiguous run inside `hay`?  Models Python's
`sub in s` on strings. -/
def strContains (needle hay : List Char) : Bool :=
  needle.isPrefixOf hay ||
    match hay with
    | [] => false
    | _ :: rest => strContains needle rest

/-- Python `key in x`: dict key lookup, list membership, string containment;
raises `TypeError` on non-container values. -/
def pyIn (key : String) : Json → Except Unit Bool
  | .obj l => .ok (lookupKey l key).isSome
  | .arr l => .ok (l.any fun j => match j with | .str s => s == key | _ => false)
  | .str s => .ok (strContains key.toList s.toList)
  | _ => .error ()

/-- Python `x[key]` with a string key: dict lookup (raising `KeyError` when
absent), `TypeError` on anything else. -/
def pyGetItem (j : Json) (key : String) : Except Unit Json :=
  match j with
  | .obj l =>
    match lookupKey l key with
    | some v => .ok v
    | none => .error ()
  | _ => .error ()

/-- Python `x.get(key, default)`: defined on dicts only; any other value has
no `.get` attribute and raises `AttributeError`. -/
def pyDictGet (j : Json) (key : String) (dflt : Json) : Except Unit Json :=
  match j with
  | .obj l => .ok ((lookupKey l key).getD dflt)
  | _ => .error ()

/-- Python `x[0]`: first element of a list, first character of a nonempty
string; raises on everything else (dict keys are strings here, so `d[0]`
raises `KeyError`). -/
def pyIndex0 (j : Json) : Except Unit Json :=
  match j with
  | .arr (x :: _) => .ok x
  | .str s =>
    match s.toList with
    | c :: _ => .ok (.str (String.mk [c]))
    | [] => .error ()
  | _ => .error ()

/-- Python `x > 0` on a JSON value: numbers compare numerically, booleans are
integers (`True > 0` is `True`), every other type raises `TypeError`. -/
def pyGtZero (j : Json) : Except Unit Bool :=
  match j with
  | .num q => .ok (decide (0 < q))
  | .bool b => .ok b
  | _ => .error ()

/-- Python `a > 0 or b > 0` with short-circuiting: `b > 0` is evaluated only
when `a > 0` is false. -/
def pyGtZeroOr (a b : Json) : Except Unit Bool :=
  match pyGtZero a with
  | .error e => .error e
  | .ok true => .ok true
  | .ok false => pyGtZero b

/-! ## The count parser (`_parse_count` in `tiktok.py` and `instagram.py`) -/

/-- Errors a Python numeric conversion can raise: `ValueError` (unparsable
text, or `int(nan)`), `OverflowError` (`int(inf)`). -/
inductive CountErr where
  | valueError
  | overflowError
deriving DecidableEq

/-- A Python float: an exact decimal `mant * 10 ^ exp`, infinity, or NaN.
All floats arising here come from decimal literals, which this representation
captures exactly (binary rounding is abstracted away). -/
inductive PyFloat where
  | finite (mant : ℤ) (exp : ℤ)
  | inf
  | neginf
  | nan

/-- Strip leading and trailing whitespace (`str.strip()` / the whitespace
tolerance of `float()`). -/
def trimWs (l : List Char) : List Char :=
  ((l.dropWhile Char.isWhitespace).reverse.dropWhile Char.isWhitespace).reverse

/-- All characters are ASCII digits and the list is nonempty. -/
def allDigits (l : List Char) : Bool := !l.isEmpty && l.all Char.isDigit

/-- Numeric value of a digit string. -/
def digitsToNat (l : List Char) : ℕ :=
  l.foldl (fun a c => 10 * a + (c.toNat - 48)) 0

/-- Split a list at the first character satisfying `p`; the second component
is `none` when no such character occurs. -/
def splitOnFirst (p : Char → Bool) : List Char → List Char × Option (List Char)
  | [] => ([], none)
  | c :: cs =>
    if p c then ([], some cs)
    else
      let (a, b) := splitOnFirst p cs
      (c :: a, b)

/-- Mantissa of a float literal: `digits`, `digits.digits`, `digits.` or
`.digits` (at least one digit overall).  Returns the digit value with the
decimal point removed, together with the number of fractional digits. -/
def parseMantissa (l : List Char) : Option (ℕ × ℕ) :=
  match splitOnFirst (· == '.') l with
  | (ip, none) => if allDigits ip then some (digitsToNat ip, 0) else none
  | (ip, some fp) =>
    if (ip.all Char.isDigit && fp.all Char.isDigit) && !(ip.isEmpty && fp.isEmpty) then
      some (digitsToNat (ip ++ fp), fp.length)
    else none

/-- Exponent part of a float literal: optional sign then digits. -/
def parseExp (l : List Char) : Option ℤ :=
  match l with
  | '+' :: r => if allDigits r then some (digitsToNat r) else none
  | '-' :: r => if allDigits r then some (-(digitsToNat r : ℤ)) else none
  | r => if allDigits r then some (digitsToNat r) else none

/-- Python's `float(s)` on a character list: surrounding whitespace tolerated,
case-insensitive, accepting a sign, `inf`/`infinity`/`nan`, and decimal
literals with an optional exponent.  Returns `none` where `float` raises
`ValueError`. -/
def pyFloatOfChars (input : List Char) : Option PyFloat :=
  let l := (trimWs input).map Char.toUpper
  let neg : Bool := match l with | '-' :: _ => true | _ => false
  let body : List Char := match l with | '+' :: r => r | '-' :: r => r | r => r
  if body = ['I', 'N', 'F'] || body = ['I', 'N', 'F', 'I', 'N', 'I', 'T', 'Y'] then
    some (if neg then .neginf else .inf)
  else if body = ['N', 'A', 'N'] then
    some .nan
  else
    match splitOnFirst (· == 'E') body with
    | (mant, none) =>
      (parseMantissa mant).map fun p =>
        .finite (if neg then -(p.1 : ℤ) else (p.1 : ℤ)) (-(p.2 : ℤ))
    | (mant, some ex) =>
      match parseMantissa mant, parseExp ex with
      | some p, some e =>
        some (.finite (if neg then -(p.1 : ℤ) else (p.1 : ℤ)) (e - (p.2 : ℤ)))
      | _, _ => none

/-- Truncation toward zero of the exact decimal `mant * 10 ^ exp` (Python's
`int()` applied to a finite float). -/
def truncDecimal (mant exp : ℤ) : ℤ :=
  if 0 ≤ exp then mant * (10 : ℤ) ^ exp.toNat
  else
    let d : ℕ := 10 ^ (-exp).toNat
    if 0 ≤ mant then (mant.toNat / d : ℕ) else -((((-mant).toNat) / d : ℕ) : ℤ)

/-- Python's `int(f)` for a float: truncation toward zero for finite values,
`ValueError` for NaN, `OverflowError` for infinities. -/
def pyIntOfFloat (f : PyFloat) : Except CountErr ℤ :=
  match f with
  | .finite mant exp => .ok (truncDecimal mant exp)
  | .nan => .error .valueError
  | .inf => .error .overflowError
  | .neginf => .error .overflowError

/-- Normalisation `text.strip().upper().replace(',', '').replace(' ', '')`. -/
def normalizeCount (s : String) : List Char :=
  ((trimWs s.toList).map Char.toUpper).filter fun c => !(c == ',' || c == ' ')

/-- Detect and strip the trailing magnitude suffix, returning the base-10
exponent of its multiplier (`K` = 10^3, `M` = 10^6, `B` = 10^9, checked in
that order on the uppercased text). -/
def splitSuffix (l : List Char) : ℕ × List Char :=
  match l.getLast? with
  | some 'K' => (3, l.dropLast)
  | some 'M' => (6, l.dropLast)
  | some 'B' => (9, l.dropLast)
  | _ => (0, l)

/-- The `except ValueError: return 0` handler wrapped around the body of
`_parse_count`: a `ValueError` degrades to 0, anything else propagates. -/
def catchValueError (r : Except CountErr ℤ) : Except CountErr ℤ :=
  match r with
  | .error .valueError => .ok 0
  | r => r

/-- Body of the `try` block of `TikTokScraper._parse_count`: normalise, strip
the magnitude suffix, run `int(float(text) * multiplier)`. -/
def tiktokCountBody (text : String) : Except CountErr ℤ :=
  let t := normalizeCount text
  let (multExp, body) := splitSuffix t
  match pyFloatOfChars body with
  | none => .error .valueError
  | some f =>
    match f with
    | .finite mant exp => pyIntOfFloat (.finite mant (exp + multExp))
    | other => pyIntOfFloat other

/-- Model of `TikTokScraper._parse_count` (`tiktok.py` lines 106-129): parse counts such
as `1.5M`, `234K`, `1,234`.  The only uncaught error is an `OverflowError`
escaping from `int(float(text) * multiplier)`. -/
def tiktokParseCount (text : String) : Except CountErr ℤ :=
  if text = "" then .ok 0
  else catchValueError (tiktokCountBody text)

/-- Body of the `try` block of `InstagramScraper._parse_count`: character for
character the same code as `TikTokScraper._parse_count`'s. -/
def instagramCountBody (text : String) : Except CountErr ℤ :=
  let t := normalizeCount text
  let (multExp, body) := splitSuffix t
  match pyFloatOfChars body with
  | none => .error .valueError
  | some f =>
    match f with
    | .finite mant exp => pyIntOfFloat (.finite mant (exp + multExp))
    | other => pyIntOfFloat other

/-- Model of `InstagramScraper._parse_count` (`instagram.py` lines 173-194): the second
copy of the duplicated count parser. -/
def instagramParseCount (text : String) : Except CountErr ℤ :=
  if text = "" then .ok 0
  else catchValueError (instagramCountBody text)

instance {ε α : Type} [DecidableEq ε] [DecidableEq α] : DecidableEq (Except ε α)
  | .ok a, .ok b =>
    if h : a = b then .isTrue (by rw [h]) else .isFalse (by intro hh; cases hh; exact h rfl)
  | .error a, .error b =>
    if h : a = b then .isTrue (by rw [h]) else .isFalse (by intro hh; cases hh; exact h rfl)
  | .ok _, .error _ => .isFalse (by intro hh; cases hh)
  | .error _, .ok _ => .isFalse (by intro hh; cases hh)

/-! ## The platform classifier (URL regular expressions)

The source tests each URL with `re.search` against fixed patterns.  In every
pattern, a character class is never able to match the first character of the
literal that follows it, so greedy maximal-munch matching coincides with the
backtracking regex semantics, and the matchers below implement exactly that:
scan every start position left to right, and at each position take literals
and maximal character-class runs. -/

/-- Word characters (`\w` of the source regexes), modelled as ASCII `[A-Za-z0-9_]`. -/
def isWordChar (c : Char) : Bool := c.isAlphanum || c == '_'

/-- The class `[\w.-]` (TikTok handle characters). -/
def isWordDotDash (c : Char) : Bool := isWordChar c || c == '.' || c == '-'

/-- The class `[\w-]` (Instagram shortcode characters). -/
def isWordDash (c : Char) : Bool := isWordChar c || c == '-'

/-- Does some suffix of the input satisfy `p`?  Models the position scan of
`re.search`. -/
def searchAux (p : List Char → Bool) : List Char → Bool
  | [] => p []
  | c :: cs => p (c :: cs) || searchAux p cs

/-- Match, at the current position, the literal `lit` followed by at least one
character of class `cls` (patterns of the shape `lit\w+`). -/
def litThenPlus (lit : List Char) (cls : Char → Bool) (l : List Char) : Bool :=
  lit.isPrefixOf l &&
    match l.drop lit.length with
    | c :: _ => cls c
    | [] => false

/-- Match, at the current position, the pattern
`tiktok\.com/@[\w.-]+/video/\d+`. -/
def tiktokWatchAt (l : List Char) : Bool :=
  let lit := "tiktok.com/@".toList
  lit.isPrefixOf l &&
    (let rest := l.drop lit.length
     let run := rest.takeWhile isWordDotDash
     let after := rest.drop run.length
     (!run.isEmpty && "/video/".toList.isPrefixOf after) &&
       match after.drop 7 with
       | c :: _ => c.isDigit
       | [] => false)

/-- Model of `TikTokScraper.is_tiktok_url` (`tiktok.py` lines 35-42). -/
def isTiktokUrl (url : String) : Bool :=
  searchAux tiktokWatchAt url.toList ||
  searchAux (litThenPlus "vm.tiktok.com/".toList isWordChar) url.toList ||
  searchAux (litThenPlus "tiktok.com/t/".toList isWordChar) url.toList

/-- Model of `InstagramScraper.is_instagram_url` (`instagram.py` lines 34-42). -/
def isInstagramUrl (url : String) : Bool :=
  searchAux (litThenPlus "instagram.com/p/".toList isWordDash) url.toList ||
  searchAux (litThenPlus "instagram.com/reel/".toList isWordDash) url.toList ||
  searchAux (litThenPlus "instagram.com/reels/".toList isWordDash) url.toList ||
  searchAux (litThenPlus "instagram.com/tv/".toList isWordDash) url.toList

/-! ## Meta-description regexes (`([\d,KMB.]+)\s*likes?` etc.) -/

/-- The class `[\d,KMB.]` under `re.I`. -/
def isMetaNumChar (c : Char) : Bool :=
  c.isDigit || c == ',' || c == '.' ||
    c == 'K' || c == 'M' || c == 'B' || c == 'k' || c == 'm' || c == 'b'

/-- Case-insensitive literal match at the current position (`pat` given in
lowercase). -/
def ciStarts (pat : List Char) (l : List Char) : Bool :=
  match pat, l with
  | [], _ => true
  | _, [] => false
  | p :: ps, c :: cs => (c.toLower == p) && ciStarts ps cs

/-- Try to match `([\d,KMB.]+)\s*word` at the current position, returning the
captured group. -/
def findNumAt (word : List Char) (l : List Char) : Option (List Char) :=
  match l with
  | [] => none
  | c :: _ =>
    if isMetaNumChar c then
      let run := l.takeWhile isMetaNumChar
      let rest := (l.drop run.length).dropWhile Char.isWhitespace
      if ciStarts word rest then some run else none
    else none

/-- Leftmost match of `([\d,KMB.]+)\s*word` anywhere in the input, returning
the captured number token (`re.search(...).group(1)`). -/
def findNum (word : List Char) : List Char → Option (List Char)
  | [] => none
  | c :: cs =>
    match findNumAt word (c :: cs) with
    | some r => some r
    | none => findNum word cs

/-! ## Structured-data extractors -/

/-- The stat quadruple held in the Python `stats` dict.  The four keys are
present by construction on every path, mirroring the dict literals in the
source, all of which contain exactly these four keys. -/
structure Stats4 where
  views : Json
  likes : Json
  comments : Json
  shares : Json

/-- The all-zero quadruple. -/
def zeroStats : Stats4 := ⟨.num 0, .num 0, .num 0, .num 0⟩

/-- Model of `TikTokScraper._parse_intercepted_data` (`tiktok.py` lines 55-84): resolve
the item object by an `elif` chain on the presence of the top-level keys
`itemInfo`, `seoProps`, `itemList`, then read
`stats.playCount/diggCount/commentCount/shareCount` with default 0.  Any
exception inside the `try` is swallowed and yields `None`. -/
def tiktokParseIntercepted (payload : Option Json) : Option Stats4 :=
  match payload with
  | none => none
  | some data =>
    if !truthy data then none
    else
      let body : Except Unit (Option Stats4) := do
        let hasII ← pyIn "itemInfo" data
        let itemInfo : Option Json ←
          if hasII then do
            let ii ← pyGetItem data "itemInfo"
            let st ← pyDictGet ii "itemStruct" (.obj [])
            pure (some st)
          else do
            let hasSeo ← pyIn "seoProps" data
            if hasSeo then do
              let sp ← pyDictGet data "seoProps" (.obj [])
              let wv ← pyDictGet sp "webVideoDetail" (.obj [])
              pure (some wv)
            else do
              let hasIL ← pyIn "itemList" data
              if hasIL then do
                let il ← pyDictGet data "itemList" (.arr [])
                if truthy il then do
                  let first ← pyIndex0 il
                  pure (some first)
                else
                  pure none
              else
                pure none
        match itemInfo with
        | some item =>
          if truthy item then do
            let stats ← pyDictGet item "stats" (.obj [])
            let v ← pyDictGet stats "playCount" (.num 0)
            let l ← pyDictGet stats "diggCount" (.num 0)
            let c ← pyDictGet stats "commentCount" (.num 0)
            let sh ← pyDictGet stats "shareCount" (.num 0)
            pure (some ⟨v, l, c, sh⟩)
          else
            pure none
        | none => pure none
      match body with
      | .ok r => r
      | .error _ => none

/-- Key lookup on a JSON object, `none` when the value is not an object or
the key is absent.  Used only by `specTiktokShapeResolve` below. -/
def jGet (j : Json) (k : String) : Option Json :=
  match j with
  | .obj l => lookupKey l k
  | _ => none

/-- Modelled from the spec's words (4.4, TikTok): "try, in order,
`itemInfo.itemStruct`, `seoProps.webVideoDetail`, first element of
`itemList`; from whichever object is found, read
`stats.playCount/diggCount/commentCount/shareCount`, defaulting each to 0 if
absent."  This is the claimed behaviour, to be compared with
`tiktokParseIntercepted` (the source's behaviour). -/
def specTiktokShapeResolve (payload : Json) : Option Stats4 :=
  let cand : Option Json :=
    (jGet payload "itemInfo" >>= fun ii => jGet ii "itemStruct") <|>
    (jGet payload "seoProps" >>= fun sp => jGet sp "webVideoDetail") <|>
    (match jGet payload "itemList" with
     | some (.arr (x :: _)) => some x
     | _ => none)
  cand.map fun item =>
    let stats := (jGet item "stats").getD (.obj [])
    ⟨(jGet stats "playCount").getD (.num 0),
     (jGet stats "diggCount").getD (.num 0),
     (jGet stats "commentCount").getD (.num 0),
     (jGet stats "shareCount").getD (.num 0)⟩

/-- Model of `InstagramScraper._parse_intercepted_data` (`instagram.py` lines 69-120):
resolve the media object (GraphQL `data.shortcode_media`, then
`data.xdt_shortcode_media` overriding it, then `items[0]` overriding both),
read the graph-API stat fields, and fall back per-field to the flat fields
when the graph value is falsy.  Shares is the literal 0.  Any exception
inside the `try` yields `None`. -/
def igParseIntercepted (payload : Option Json) : Option Stats4 :=
  match payload with
  | none => none
  | some data =>
    if !truthy data then none
    else
      let body : Except Unit (Option Stats4) := do
        let hasData ← pyIn "data" data
        let media1 : Option Json ←
          if hasData then do
            let d1 ← pyDictGet data "data" (.obj [])
            let sm ← pyDictGet d1 "shortcode_media" (.obj [])
            let m1 : Option Json := if truthy sm then some sm else none
            let d2 ← pyDictGet data "data" (.obj [])
            let xm ← pyDictGet d2 "xdt_shortcode_media" (.obj [])
            pure (if truthy xm then some xm else m1)
          else
            pure none
        let hasItems ← pyIn "items" data
        let media2 : Option Json ←
          if hasItems then do
            let il ← pyDictGet data "items" (.arr [])
            if truthy il then do
              let first ← pyIndex0 il
              pure (some first)
            else
              pure media1
          else
            pure media1
        match media2 with
        | some m =>
          if truthy m then do
            let e1 ← pyDictGet m "edge_media_preview_like" (.obj [])
            let likes1 ← pyDictGet e1 "count" (.num 0)
            let e2 ← pyDictGet m "edge_media_to_comment" (.obj [])
            let comments1 ← pyDictGet e2 "count" (.num 0)
            let vv ← pyDictGet m "video_view_count" (.num 0)
            let pc ← pyDictGet m "play_count" (.num 0)
            let views1 := if truthy vv then vv else pc
            let likes2 ← if truthy likes1 then pure likes1
                         else pyDictGet m "like_count" (.num 0)
            let comments2 ← if truthy comments1 then pure comments1
                            else pyDictGet m "comment_count" (.num 0)
            let views2 ← if truthy views1 then pure views1
                         else pyDictGet m "view_count" (.num 0)
            pure (some ⟨views2, likes2, comments2, .num 0⟩)
          else
            pure none
        | none => pure none
      match body with
      | .ok r => r
      | .error _ => none

/-! ## HTML fallback extractors -/

/-- The four stat names iterated over by the TikTok HTML fallback. -/
inductive TStat where
  | views
  | likes
  | comments
  | shares
deriving DecidableEq

/-- Model of `TikTokScraper._parse_from_html` (`tiktok.py` lines 86-104), parametrised
by the DOM: `dom s` is the inner text of the selector for stat `s`, `none`
when no element is found or the query raises.  Each stat is attempted
independently; a failure (including an `OverflowError` escaping
`_parse_count`) leaves that stat at 0. -/
def tiktokParseFromHtml (dom : TStat → Option String) : TStat → ℤ :=
  fun s =>
    match dom s with
    | none => 0
    | some t =>
      match tiktokParseCount t with
      | .ok n => n
      | .error _ => 0

/-- Package the TikTok HTML integer stats as a quadruple. -/
def tiktokHtmlStats (dom : TStat → Option String) : Stats4 :=
  ⟨.num (tiktokParseFromHtml dom .views), .num (tiktokParseFromHtml dom .likes),
   .num (tiktokParseFromHtml dom .comments), .num (tiktokParseFromHtml dom .shares)⟩

/-- Strategy (a) of `InstagramScraper._parse_from_html` (`instagram.py` lines
132-147): regex extraction from the `og:description` meta content, each group
fed through `_parse_count`.  The result is `Except` because an
`OverflowError` escaping `_parse_count` aborts the surrounding `try` —
`.error` carries the partially updated stats and means the script-block
strategy is skipped. -/
def igMetaStatsE (meta : Option String) : Except Stats4 Stats4 :=
  match meta with
  | none => .ok zeroStats
  | some content =>
    if content = "" then .ok zeroStats
    else
      let s0 := zeroStats
      let afterLikes : Except Stats4 Stats4 :=
        match findNum "like".toList content.toList with
        | none => .ok s0
        | some g =>
          match instagramParseCount (String.mk g) with
          | .ok n => .ok { s0 with likes := .num n }
          | .error _ => .error s0
      let afterComments : Except Stats4 Stats4 := do
        let s ← afterLikes
        match findNum "comment".toList content.toList with
        | none => pure s
        | some g =>
          match instagramParseCount (String.mk g) with
          | .ok n => pure { s with comments := .num n }
          | .error _ => throw s
      let afterViews : Except Stats4 Stats4 := do
        let s ← afterComments
        match findNum "view".toList content.toList with
        | none => pure s
        | some g =>
          match instagramParseCount (String.mk g) with
          | .ok n => pure { s with views := .num n }
          | .error _ => throw s
      afterViews

/-- The stats produced by the meta-description strategy alone (partial stats
when the strategy aborted). -/
def igMetaStats (meta : Option String) : Stats4 :=
  match igMetaStatsE meta with
  | .ok s => s
  | .error s => s

/-- Python iteration `for x in v`: lists yield elements, strings yield
one-character strings, dicts yield their keys; other values raise
`TypeError`. -/
def pyIterate (j : Json) : Except Unit (List Json) :=
  match j with
  | .arr l => .ok l
  | .str s => .ok (s.toList.map fun c => .str (String.mk [c]))
  | .obj l => .ok (l.map fun kv => .str kv.1)
  | _ => .error ()

/-- One `interactionStatistic` entry (lines 156-164): read `interactionType`
and `userInteractionCount`, then assign the count to likes / comments / views
when the type mentions `Like` / `Comment` / `Watch`.  Assignments are
unconditional. -/
def igApplyEntry (s : Stats4) (entry : Json) : Except Unit Stats4 := do
  let t ← pyDictGet entry "interactionType" (.str "")
  let c ← pyDictGet entry "userInteractionCount" (.num 0)
  let isLike ← pyIn "Like" t
  if isLike then
    pure { s with likes := c }
  else do
    let isComment ← pyIn "Comment" t
    if isComment then
      pure { s with comments := c }
    else do
      let isWatch ← pyIn "Watch" t
      if isWatch then
        pure { s with views := c }
      else
        pure s

/-- Fold the entries of one script's `interactionStatistic` list; an exception
mid-iteration keeps the mutations applied so far. -/
def igApplyEntries (s : Stats4) : List Json → Stats4
  | [] => s
  | e :: rest =>
    match igApplyEntry s e with
    | .ok s' => igApplyEntries s' rest
    | .error _ => s

/-- Process one `application/ld+json` script block (lines 151-166): `none`
models a body `json.loads` rejects; any exception inside the per-script `try`
leaves the stats accumulated so far. -/
def igApplyScript (s : Stats4) (script : Option Json) : Stats4 :=
  match script with
  | none => s
  | some d =>
    let body : Except Unit Stats4 := do
      let hasIS ← pyIn "interactionStatistic" d
      if hasIS then do
        let lst ← pyDictGet d "interactionStatistic" (.arr [])
        let entries ← pyIterate lst
        pure (igApplyEntries s entries)
      else
        pure s
    match body with
    | .ok s' => s'
    | .error _ => s

/-- Strategy (b): all script blocks in document order. -/
def igApplyScripts (scripts : List (Option Json)) (s : Stats4) : Stats4 :=
  scripts.foldl igApplyScript s

/-- Model of `InstagramScraper._parse_from_html` (`instagram.py` lines 122-171): the
meta-description strategy followed by the script-block strategy; when the
meta strategy aborts the outer `try`, the partial stats are returned and the
script strategy never runs. -/
def igParseFromHtml (meta : Option String) (scripts : List (Option Json)) : Stats4 :=
  match igMetaStatsE meta with
  | .ok s => igApplyScripts scripts s
  | .error s => s

/-! ## Scrape orchestrators -/

/-- Outcome of `page.goto(url, wait_until='networkidle', timeout=30000)`:
either it returns, or it raises — a `TimeoutError` after the 30-second
ceiling, or another navigation failure.  Both raises carry `str(e)`. -/
inductive NavOutcome where
  | success
  | timeout (msg : String)
  | failure (msg : String)

/-- Which branch produced the returned stats, mirroring the source's
distinguishing log lines ("Data extracted from network response" /
"Falling back to HTML parsing" / the `except` handler). -/
inductive Source where
  | network
  | html
  | failed
deriving DecidableEq

/-- The value returned by a platform `scrape` method: the stat quadruple, the
optional `error` entry, and the branch that produced it. -/
structure ScrapeOutcome where
  stats : Stats4
  error : Option String
  source : Source

/-- The `except Exception` handler of both `scrape` methods: all four stats
zeroed plus `'error': str(e)`. -/
def errOutcome (msg : String) : ScrapeOutcome :=
  ⟨zeroStats, some msg, .failed⟩

/-- Stand-in for the text of a Python `TypeError` raised by a `>` comparison
on a non-numeric stat value (the exact message text is abstracted). -/
def typeErrorMsg : String := "TypeError"

/-- Model of `TikTokScraper.scrape` (`tiktok.py` lines 131-180): navigate (any raise
goes to the handler), try the intercepted payload, accept it iff
`stats.get('views', 0) > 0`, otherwise fall back to HTML parsing. -/
def tiktokScrape (payload : Option Json) (nav : NavOutcome)
    (dom : TStat → Option String) : ScrapeOutcome :=
  match nav with
  | .timeout msg => errOutcome msg
  | .failure msg => errOutcome msg
  | .success =>
    match tiktokParseIntercepted payload with
    | some st =>
      match pyGtZero st.views with
      | .error _ => errOutcome typeErrorMsg
      | .ok true => ⟨st, none, .network⟩
      | .ok false => ⟨tiktokHtmlStats dom, none, .html⟩
    | none => ⟨tiktokHtmlStats dom, none, .html⟩

/-- Model of `InstagramScraper.scrape` (`instagram.py` lines 196-245): navigate, try
the intercepted payload, accept it iff
`stats.get('views', 0) > 0 or stats.get('likes', 0) > 0`, otherwise fall back
to HTML parsing (whose own `views > 0 or likes > 0` check can itself raise a
`TypeError` on non-numeric script-derived values, hitting the handler). -/
def instagramScrape (payload : Option Json) (nav : NavOutcome)
    (meta : Option String) (scripts : List (Option Json)) : ScrapeOutcome :=
  match nav with
  | .timeout msg => errOutcome msg
  | .failure msg => errOutcome msg
  | .success =>
    let htmlPath : ScrapeOutcome :=
      let h := igParseFromHtml meta scripts
      match pyGtZeroOr h.views h.likes with
      | .error _ => errOutcome typeErrorMsg
      | .ok _ => ⟨h, none, .html⟩
    match igParseIntercepted payload with
    | some st =>
      match pyGtZeroOr st.views st.likes with
      | .error _ => errOutcome typeErrorMsg
      | .ok true => ⟨st, none, .network⟩
      | .ok false => htmlPath
    | none => htmlPath

/-! ## Orchestration (`scraper.py`, `api.py`) -/

/-- The two supported platforms. -/
inductive Platform where
  | tiktok
  | instagram
deriving DecidableEq

/-- Model of `detect_platform` (`scraper.py` lines 46-52, `api.py` lines 29-35):
TikTok patterns checked first, `None`/`'unknown'` when neither matches. -/
def detectPlatform (url : String) : Option Platform :=
  if isTiktokUrl url then some .tiktok
  else if isInstagramUrl url then some .instagram
  else none

/-- The external world one scrape can observe: the retained intercepted
payload, the navigation outcome, and the DOM data each extractor reads. -/
structure ScrapeEnv where
  tPayload : Option Json
  tNav : NavOutcome
  tDom : TStat → Option String
  iPayload : Option Json
  iNav : NavOutcome
  iMeta : Option String
  iScripts : List (Option Json)

/-- Browser-session lifecycle events (`create_stealth_browser`, `page.goto`,
`safe_close`). -/
inductive Event where
  | openSession
  | navigate (url : String)
  | closeSession
deriving DecidableEq

/-- The result record assembled by the orchestrators.  Timestamps
(`scraped_at`) are abstracted away.  The four stat fields are present by
construction, mirroring the source's dict literals. -/
structure Record where
  url : String
  platform : String
  views : Json
  likes : Json
  comments : Json
  shares : Json
  error : Option String

/-- Wrap a platform scrape outcome into a record
(`{'url': url, 'platform': platform, **stats}`). -/
def recordOf (url pf : String) (o : ScrapeOutcome) : Record :=
  ⟨url, pf, o.stats.views, o.stats.likes, o.stats.comments, o.stats.shares, o.error⟩

/-- The unknown-platform record of `SocialMediaScraper.scrape_url`
(`scraper.py` lines 66-75) and of the batch loop (lines 131-140). -/
def unknownErrMsg : String := "Unsupported platform"

/-- The unknown-platform error of `scrape_single_url` (`api.py` lines 42-51). -/
def apiUnknownErrMsg : String := "Unsupported platform. Only TikTok and Instagram are supported."

/-- The short-circuit record for an unknown platform: zeroed quadruple plus a
fixed error string. -/
def unknownRecord (url msg : String) : Record :=
  ⟨url, "unknown", .num 0, .num 0, .num 0, .num 0, some msg⟩

/-- Model of `SocialMediaScraper.scrape_url` (`scraper.py` lines 54-95): classify; on
unknown, short-circuit with no session; otherwise open a fresh session,
run the platform scrape, and tear the session down in `finally`.  The second
component is the trace of session events. -/
def scrapeUrl (url : String) (env : ScrapeEnv) : Record × List Event :=
  match detectPlatform url with
  | none => (unknownRecord url unknownErrMsg, [])
  | some .tiktok =>
    (recordOf url "tiktok" (tiktokScrape env.tPayload env.tNav env.tDom),
     [.openSession, .navigate url, .closeSession])
  | some .instagram =>
    (recordOf url "instagram" (instagramScrape env.iPayload env.iNav env.iMeta env.iScripts),
     [.openSession, .navigate url, .closeSession])

/-- Model of `scrape_single_url` (`api.py` lines 38-81): identical orchestration with
its own unknown-platform error string. -/
def scrapeSingleUrl (url : String) (env : ScrapeEnv) : Record × List Event :=
  match detectPlatform url with
  | none => (unknownRecord url apiUnknownErrMsg, [])
  | some .tiktok =>
    (recordOf url "tiktok" (tiktokScrape env.tPayload env.tNav env.tDom),
     [.openSession, .navigate url, .closeSession])
  | some .instagram =>
    (recordOf url "instagram" (instagramScrape env.iPayload env.iNav env.iMeta env.iScripts),
     [.openSession, .navigate url, .closeSession])

/-! ## Rate limiter (`utils/rate_limiter.py`) -/

/-- State of `RateLimiter.__init__`. -/
structure RateLimiter where
  min_delay : ℚ
  max_delay : ℚ
  max_requests : ℕ
  request_count : ℕ
  last_request_time : ℚ

/-- Fresh limiter (`RateLimiter(min_delay, max_delay, max_requests)`). -/
def mkRateLimiter (minD maxD : ℚ) (maxR : ℕ) : RateLimiter :=
  ⟨minD, maxD, maxR, 0, 0⟩

/-- The process-wide instance created by `get_rate_limiter()` (defaults 3.0,
5.0, 20). -/
def getRateLimiter : RateLimiter := mkRateLimiter 3 5 20

/-- Model of `can_make_request` (lines 31-33). -/
def RateLimiter.can_make_request (s : RateLimiter) : Bool :=
  s.request_count < s.max_requests

/-- The state change of `wait()` (lines 35-52) when the call returns at time
`t`: the sleep itself is a pure delay with no further state effect, and the
call never rejects — it increments `request_count` and stamps
`last_request_time` unconditionally. -/
def RateLimiter.waitStep (s : RateLimiter) (t : ℚ) : RateLimiter :=
  { s with request_count := s.request_count + 1, last_request_time := t }

/-- Model of `reset` (lines 58-61). -/
def RateLimiter.reset (s : RateLimiter) : RateLimiter :=
  { s with request_count := 0, last_request_time := 0 }

/-- Iterated calls to `wait()` returning at the given times. -/
def applyWaits (ts : List ℚ) (s : RateLimiter) : RateLimiter :=
  ts.foldl (fun s t => s.waitStep t) s

/-! ## Batch orchestration (`SocialMediaScraper.scrape_urls`) -/

/-- The loop body of `scrape_urls` (`scraper.py` lines 117-154): stop when
`can_make_request()` is false, otherwise `wait()`, classify, and scrape on
the session's shared page.  `envOf`/`timeOf` supply each URL's observations
and the wall-clock time of its `wait()` call. -/
def scrapeUrlsGo (envOf : String → ScrapeEnv) (timeOf : String → ℚ) :
    List String → RateLimiter → List Record × RateLimiter × List Event
  | [], rl => ([], rl, [])
  | url :: rest, rl =>
    if rl.can_make_request then
      let rl1 := rl.waitStep (timeOf url)
      let step : Record × List Event :=
        match detectPlatform url with
        | none => (unknownRecord url unknownErrMsg, [])
        | some .tiktok =>
          (recordOf url "tiktok"
            (tiktokScrape (envOf url).tPayload (envOf url).tNav (envOf url).tDom),
           [.navigate url])
        | some .instagram =>
          (recordOf url "instagram"
            (instagramScrape (envOf url).iPayload (envOf url).iNav
              (envOf url).iMeta (envOf url).iScripts),
           [.navigate url])
      let (rs, rl2, evs) := scrapeUrlsGo envOf timeOf rest rl1
      (step.1 :: rs, rl2, step.2 ++ evs)
    else
      ([], rl, [])

/-- Model of `SocialMediaScraper.scrape_urls` (`scraper.py` lines 97-159): ONE browser
session and page are created before the loop and closed in `finally` after
it; every URL in the batch reuses them. -/
def scrapeUrls (urls : List String) (envOf : String → ScrapeEnv)
    (timeOf : String → ℚ) (rl : RateLimiter) :
    List Record × RateLimiter × List Event :=
  let (rs, rl', evs) := scrapeUrlsGo envOf timeOf urls rl
  (rs, rl', Event.openSession :: (evs ++ [Event.closeSession]))

/-- Number of `openSession` events in a trace. -/
def countOpens (evs : List Event) : ℕ :=
  (evs.filter fun e => e == Event.openSession).length

/-- Number of `closeSession` events in a trace. -/
def countCloses (evs : List Event) : ℕ :=
  (evs.filter fun e => e == Event.closeSession).length

/-! ## Concrete inputs used by the theorems -/

/-- A TikTok `itemInfo.itemStruct` payload with the given four stat counts. -/
def tiktokStatsPayload (v l c sh : ℚ) : Json :=
  .obj [("itemInfo", .obj [("itemStruct", .obj [("stats",
    .obj [("playCount", .num v), ("diggCount", .num l),
          ("commentCount", .num c), ("shareCount", .num sh)])])])]

/-- An Instagram GraphQL payload carrying only a comment count of 5
(views 0, likes 0). -/
def igCommentsOnlyPayload : Json :=
  .obj [("data", .obj [("shortcode_media", .obj [("edge_media_to_comment",
    .obj [("count", .num 5)])])])]

/-- A payload whose `itemInfo` is present but empty while `itemList` holds an
item with `stats.playCount = 7`. -/
def tiktokFallThroughPayload : Json :=
  .obj [("itemInfo", .obj []),
        ("itemList", .arr [.obj [("stats", .obj [("playCount", .num 7)])]])]

/-- A DOM in which every selector query comes back empty. -/
def emptyDom : TStat → Option String := fun _ => none

/-- An environment with no intercepted payload, successful navigation and an
empty DOM. -/
def quietEnv : ScrapeEnv :=
  ⟨none, .success, emptyDom, none, .success, none, []⟩

/-- A `ld+json` script block with a single Like `interactionStatistic` entry
carrying count `c`. -/
def likeScript (c : ℚ) : Option Json :=
  some (.obj [("interactionStatistic", .arr [.obj
    [("interactionType", .str "http://schema.org/LikeAction"),
     ("userInteractionCount", .num c)]])])

/-- Concrete supported and unsupported URLs. -/
def tiktokUrl1 : String := "https://www.tiktok.com/@alice/video/111"

/-- A second TikTok URL for the batch trace. -/
def tiktokUrl2 : String := "https://www.tiktok.com/@bob/video/222"

/-- A URL matching neither platform's patterns. -/
def plainUrl : String := "https://example.com/page"

/-- Environment whose TikTok payload carries a negative `diggCount`. -/
def negLikesEnv : ScrapeEnv :=
  { quietEnv with tPayload := some (tiktokStatsPayload 5 (-3) 0 0) }

/-- Is the JSON value a non-negative integer? -/
def isNonNegIntJson (j : Json) : Bool :=
  match j with
  | .num q => decide (q.den = 1 ∧ 0 ≤ q.num)
  | _ => false

/-- All four stat values are non-negative integers. -/
def stats4NonNeg (s : Stats4) : Prop :=
  isNonNegIntJson s.views = true ∧ isNonNegIntJson s.likes = true ∧
    isNonNegIntJson s.comments = true ∧ isNonNegIntJson s.shares = true

/-- All four stat fields of a record are non-negative integers. -/
def recordNonNeg (r : Record) : Prop :=
  isNonNegIntJson r.views = true ∧ isNonNegIntJson r.likes = true ∧
    isNonNegIntJson r.comments = true ∧ isNonNegIntJson r.shares = true

/-! # Theorems -/

/-- The `except ValueError` handler turns every `ValueError` into `0`; hence
any error that escapes it is an `OverflowError`. -/
theorem catchValueError_error (r : Except CountErr ℤ) (e : CountErr)
    (h : catchValueError r = .error e) : e = .overflowError := by
  cases r with
  | ok n => simp [catchValueError] at h
  | error e' =>
    cases e' with
    | valueError => simp [catchValueError] at h
    | overflowError =>
      simp [catchValueError] at h
      exact h.symm

/-- C3: the count parser never lets a `ValueError`-style parse failure escape
(unparsable text degrades to 0) and meets the six examples; but it is not
non-negative — a leading minus sign yields a negative integer — and an input
whose numeric part parses as an infinite float (such as `"INF"`) raises an
uncaught `OverflowError`. -/
theorem claim3_theorem :
    (∀ (s : String) (e : CountErr), tiktokParseCount s = .error e → e = .overflowError) ∧
    tiktokParseCount "1.5M" = .ok 1500000 ∧
    tiktokParseCount "234K" = .ok 234000 ∧
    tiktokParseCount "1,234" = .ok 1234 ∧
    tiktokParseCount "" = .ok 0 ∧
    tiktokParseCount "abc" = .ok 0 ∧
    tiktokParseCount "2B" = .ok 2000000000 ∧
    tiktokParseCount "-5" = .ok (-5) ∧
    tiktokParseCount "INF" = .error .overflowError := by
  refine ⟨?_, rfl, rfl, rfl, rfl, rfl, rfl, rfl, rfl⟩
  intro s e h
  unfold tiktokParseCount at h
  split at h
  · simp at h
  · exact catchValueError_error _ _ h

/-- C3 witness: the universal no-`ValueError` clause applied at the concrete
input `"INF"`. -/
theorem claim3_witness : CountErr.overflowError = CountErr.overflowError ∧
    tiktokParseCount "INF" = .error .overflowError :=
  ⟨claim3_theorem.1 "INF" .overflowError rfl, rfl⟩

/-- C3 counterexample: the claim promises a non-negative integer for every
input and that a parse failure never propagates; `"-5"` parses to the
negative integer -5, and `"INF"` raises an uncaught `OverflowError`. -/
theorem claim3_counterexample :
    tiktokParseCount "-5" = .ok (-5) ∧ (-5 : ℤ) < 0 ∧
    tiktokParseCount "INF" = .error .overflowError :=
  ⟨rfl, by decide, rfl⟩

/-- C10: the two duplicated count parsers are extensionally equal — on every
input string `TikTokScraper._parse_count` and `InstagramScraper._parse_count`
return the same value and fail in the same cases. -/
theorem claim10_theorem :
    ∀ s : String, tiktokParseCount s = instagramParseCount s :=
  fun _ => rfl

/-- C1 counterexample: a TikTok structured result with views = 0 but
likes = 890 > 0 — the claim says it must be accepted, yet the source's check
(`stats.get('views', 0) > 0`) rejects it and the HTML fallback runs. -/
theorem claim1_counterexample :
    tiktokParseIntercepted (some (tiktokStatsPayload 0 890 45 12)) =
      some ⟨.num 0, .num 890, .num 45, .num 12⟩ ∧
    (0 : ℚ) < 890 ∧
    (tiktokScrape (some (tiktokStatsPayload 0 890 45 12)) .success emptyDom).source = .html :=
  ⟨rfl, by norm_num, rfl⟩

/-- C1 (amended): the TikTok orchestrator accepts the structured result
exactly when its views field is strictly positive (likes play no part), while
the Instagram orchestrator accepts exactly when views or likes is strictly
positive; a structured result of `{views: 0, likes: 0, comments: 5,
shares: 0}` is rejected by both and forces the HTML fallback. -/
theorem claim1_theorem :
    (∀ (p : Option Json) (dom : TStat → Option String) (v l c sh : ℚ),
      tiktokParseIntercepted p = some ⟨.num v, .num l, .num c, .num sh⟩ →
      ((tiktokScrape p .success dom).source = .network ↔ 0 < v)) ∧
    (∀ (p : Option Json) (meta : Option String) (scripts : List (Option Json)) (v l c sh : ℚ),
      igParseIntercepted p = some ⟨.num v, .num l, .num c, .num sh⟩ →
      ((instagramScrape p .success meta scripts).source = .network ↔ (0 < v ∨ 0 < l))) ∧
    tiktokParseIntercepted (some (tiktokStatsPayload 0 0 5 0)) =
      some ⟨.num 0, .num 0, .num 5, .num 0⟩ ∧
    (tiktokScrape (some (tiktokStatsPayload 0 0 5 0)) .success emptyDom).source = .html ∧
    igParseIntercepted (some igCommentsOnlyPayload) =
      some ⟨.num 0, .num 0, .num 5, .num 0⟩ ∧
    (instagramScrape (some igCommentsOnlyPayload) .success none []).source = .html := by
  refine ⟨?_, ?_, rfl, rfl, rfl, rfl⟩
  · intro p dom v l c sh h
    simp only [tiktokScrape, h, pyGtZero]
    by_cases hv : (0 : ℚ) < v
    · simp [hv]
    · simp [hv]
  · intro p meta scripts v l c sh h
    simp only [instagramScrape, h, pyGtZeroOr, pyGtZero]
    by_cases hv : (0 : ℚ) < v
    · simp [hv]
    · by_cases hl : (0 : ℚ) < l
      · simp [hv, hl]
      · simp only [hv, hl, decide_eq_true_eq, if_neg, decide_True, decide_False]
        split <;> simp [errOutcome, hv, hl]

/-- C1 witness: the TikTok acceptance equivalence applied to the intercepted
payload with views 12500, likes 890. -/
theorem claim1_witness :
    (tiktokScrape (some (tiktokStatsPayload 12500 890 45 12)) .success emptyDom).source
      = .network ↔ (0 : ℚ) < 12500 :=
  claim1_theorem.1 (some (tiktokStatsPayload 12500 890 45 12)) emptyDom 12500 890 45 12 rfl

/-- C2 counterexample: navigation times out with a captured payload available,
nothing else fails — yet the scrape produces a zeroed record with the timeout
message in its `error` field, instead of proceeding to extraction. -/
theorem claim2_counterexample :
    (tiktokScrape (some (tiktokStatsPayload 12500 890 45 12))
        (.timeout "Timeout 30000ms exceeded.") emptyDom).error =
      some "Timeout 30000ms exceeded." ∧
    (tiktokScrape (some (tiktokStatsPayload 12500 890 45 12))
        (.timeout "Timeout 30000ms exceeded.") emptyDom).stats = zeroStats :=
  ⟨rfl, rfl⟩

/-- C2 (amended): a navigation timeout is caught by the generic
`except Exception` handler like any other navigation failure: on both
platforms the scrape skips the extraction attempts and returns the zeroed
quadruple with the timeout message as `error`. -/
theorem claim2_theorem :
    (∀ (payload : Option Json) (dom : TStat → Option String) (msg : String),
      tiktokScrape payload (.timeout msg) dom = ⟨zeroStats, some msg, .failed⟩) ∧
    (∀ (payload : Option Json) (meta : Option String) (scripts : List (Option Json)) (msg : String),
      instagramScrape payload (.timeout msg) meta scripts = ⟨zeroStats, some msg, .failed⟩) :=
  ⟨fun _ _ _ => rfl, fun _ _ _ _ => rfl⟩

/-- C5 counterexample: on a payload whose `itemInfo` is present but lacks
`itemStruct` while `itemList` holds an item with `playCount = 7`, the claimed
ordered fall-through would extract views 7, but the source's `elif` chain
commits to `itemInfo`, finds an empty object, and yields no data at all. -/
theorem claim5_counterexample :
    tiktokParseIntercepted (some tiktokFallThroughPayload) = none ∧
    specTiktokShapeResolve tiktokFallThroughPayload =
      some ⟨.num 7, .num 0, .num 0, .num 0⟩ ∧
    (none : Option Stats4) ≠ some ⟨.num 7, .num 0, .num 0, .num 0⟩ :=
  ⟨rfl, rfl, by simp⟩

/-- C5 (amended): the extractor resolves the item object by an `elif` chain on
the presence of the top-level keys `itemInfo`, `seoProps`, `itemList` —
committing to the first present key without falling through when its inner
object is missing or empty — and reads
`stats.playCount/diggCount/commentCount/shareCount` defaulting each to 0; the
concrete payload of the claim yields exactly
`{views: 12500, likes: 890, comments: 45, shares: 12}`. -/
theorem claim5_theorem :
    tiktokParseIntercepted (some (tiktokStatsPayload 12500 890 45 12)) =
      some ⟨.num 12500, .num 890, .num 45, .num 12⟩ ∧
    (∀ v junk : Json,
      tiktokParseIntercepted (some (.obj [("itemInfo", v), ("itemList", junk)])) =
        tiktokParseIntercepted (some (.obj [("itemInfo", v)]))) ∧
    (∀ v junk : Json,
      tiktokParseIntercepted (some (.obj [("seoProps", v), ("itemList", junk)])) =
        tiktokParseIntercepted (some (.obj [("seoProps", v)]))) ∧
    tiktokParseIntercepted
        (some (.obj [("itemInfo", .obj [("itemStruct", .obj [("stats", .obj [])])])])) =
      some ⟨.num 0, .num 0, .num 0, .num 0⟩ :=
  ⟨rfl, fun _ _ => rfl, fun _ _ => rfl, rfl⟩

/-- C7 counterexample: the meta-description strategy extracts likes = 100
(nonzero); with a script block carrying a Like `interactionStatistic` of 5,
the final likes value is 5 — the nonzero meta value was overwritten, which
the claim says never happens. -/
theorem claim7_counterexample :
    (igParseFromHtml (some "100 likes") [likeScript 5]).likes = .num 5 ∧
    (igParseFromHtml (some "100 likes") []).likes = .num 100 ∧
    Json.num 5 ≠ Json.num 100 := by
  refine ⟨rfl, rfl, ?_⟩
  intro h
  injection h with h'
  exact absurd h' (by norm_num)

/-- C7 (amended): the script-block strategy overwrites unconditionally — for
every starting state, a Like entry with count `c` sets likes to `c`
regardless of any nonzero value the meta-description strategy put there;
only fields for which no script entry matches keep the meta-derived value
(with no scripts, the result is exactly the meta strategy's). -/
theorem claim7_theorem :
    (∀ (s : Stats4) (c : ℚ), (igApplyScripts [likeScript c] s).likes = .num c) ∧
    (∀ meta : Option String, igParseFromHtml meta [] = igMetaStats meta) := by
  refine ⟨fun _ _ => rfl, ?_⟩
  intro meta
  cases h : igMetaStatsE meta <;>
    simp [igParseFromHtml, igMetaStats, igApplyScripts, h]

/-- Zero is a non-negative integer. -/
theorem isNonNegIntJson_zero : isNonNegIntJson (.num 0) = true := by decide

/-- The zero quadruple is made of non-negative integers. -/
theorem stats4NonNeg_zero : stats4NonNeg zeroStats :=
  ⟨isNonNegIntJson_zero, isNonNegIntJson_zero, isNonNegIntJson_zero, isNonNegIntJson_zero⟩

/-- The short-circuit record for an unknown platform is all zeros. -/
theorem recordNonNeg_unknown (u m : String) : recordNonNeg (unknownRecord u m) :=
  ⟨isNonNegIntJson_zero, isNonNegIntJson_zero, isNonNegIntJson_zero, isNonNegIntJson_zero⟩

/-- A record wrapped from a platform outcome is non-negative exactly when the
outcome's stats are. -/
theorem recordOf_nonNeg (u p : String) (o : ScrapeOutcome) :
    recordNonNeg (recordOf u p o) ↔ stats4NonNeg o.stats :=
  Iff.rfl

/-- On every path out of `TikTokScraper.scrape`, the stat quadruple is
non-negative provided both extractors only deliver non-negative integers. -/
theorem tiktokScrape_stats_nonneg (payload : Option Json) (nav : NavOutcome)
    (dom : TStat → Option String)
    (hs : ∀ st, tiktokParseIntercepted payload = some st → stats4NonNeg st)
    (hh : stats4NonNeg (tiktokHtmlStats dom)) :
    stats4NonNeg (tiktokScrape payload nav dom).stats := by
  cases nav with
  | timeout msg => exact stats4NonNeg_zero
  | failure msg => exact stats4NonNeg_zero
  | success =>
    simp only [tiktokScrape]
    split
    · next st hp =>
        split
        · exact stats4NonNeg_zero
        · exact hs st hp
        · exact hh
    · exact hh

/-- On every path out of `InstagramScraper.scrape`, the stat quadruple is
non-negative provided both extractors only deliver non-negative integers. -/
theorem instagramScrape_stats_nonneg (payload : Option Json) (nav : NavOutcome)
    (meta : Option String) (scripts : List (Option Json))
    (hs : ∀ st, igParseIntercepted payload = some st → stats4NonNeg st)
    (hh : stats4NonNeg (igParseFromHtml meta scripts)) :
    stats4NonNeg (instagramScrape payload nav meta scripts).stats := by
  have hhtml : stats4NonNeg
      (match pyGtZeroOr (igParseFromHtml meta scripts).views
          (igParseFromHtml meta scripts).likes with
        | .error _ => errOutcome typeErrorMsg
        | .ok _ => ⟨igParseFromHtml meta scripts, none, .html⟩).stats := by
    split
    · exact stats4NonNeg_zero
    · exact hh
  cases nav with
  | timeout msg => exact stats4NonNeg_zero
  | failure msg => exact stats4NonNeg_zero
  | success =>
    simp only [instagramScrape]
    split
    · next st hp =>
        split
        · exact stats4NonNeg_zero
        · exact hs st hp
        · exact hhtml
    · exact hhtml

/-- C4 counterexample: a TikTok payload with `playCount: 5, diggCount: -3`
passes the acceptance check (views positive) and its record is produced with
likes = -3 and no error — a produced StatRecord whose likes field is not a
non-negative integer. -/
theorem claim4_counterexample :
    (scrapeUrl tiktokUrl1 negLikesEnv).1.likes = .num (-3) ∧
    isNonNegIntJson (.num (-3)) = false ∧
    (scrapeUrl tiktokUrl1 negLikesEnv).1.error = none :=
  ⟨rfl, by decide, rfl⟩

/-- C4 (amended): every produced record carries all four stat keys on every
path; the values are all 0 (hence non-negative integers) on the
unsupported-platform and exception paths, and are non-negative integers
whenever the extractors' outputs consist of non-negative integers — the
orchestrator copies extractor values into records without any validation or
clamping. -/
theorem claim4_theorem (url : String) (env : ScrapeEnv)
    (hTs : ∀ st, tiktokParseIntercepted env.tPayload = some st → stats4NonNeg st)
    (hTh : stats4NonNeg (tiktokHtmlStats env.tDom))
    (hIs : ∀ st, igParseIntercepted env.iPayload = some st → stats4NonNeg st)
    (hIh : stats4NonNeg (igParseFromHtml env.iMeta env.iScripts)) :
    recordNonNeg (scrapeUrl url env).1 := by
  unfold scrapeUrl
  cases hd : detectPlatform url with
  | none =>
    exact recordNonNeg_unknown url unknownErrMsg
  | some pf =>
    cases pf with
    | tiktok =>
      exact (recordOf_nonNeg _ _ _).mpr
        (tiktokScrape_stats_nonneg env.tPayload env.tNav env.tDom hTs hTh)
    | instagram =>
      exact (recordOf_nonNeg _ _ _).mpr
        (instagramScrape_stats_nonneg env.iPayload env.iNav env.iMeta env.iScripts hIs hIh)

/-- C4 witness: the invariant applied to a TikTok scrape with no intercepted
payload and an empty DOM. -/
theorem claim4_witness : recordNonNeg (scrapeUrl tiktokUrl1 quietEnv).1 :=
  claim4_theorem tiktokUrl1 quietEnv (fun _ h => nomatch h)
    (by refine ⟨?_, ?_, ?_, ?_⟩ <;> decide) (fun _ h => nomatch h)
    (by refine ⟨?_, ?_, ?_, ?_⟩ <;> decide)

/-- The batch loop itself emits no session events — only navigations. -/
theorem scrapeUrlsGo_no_sessions (envOf : String → ScrapeEnv)
    (timeOf : String → ℚ) :
    ∀ (urls : List String) (rl : RateLimiter),
      countOpens (scrapeUrlsGo envOf timeOf urls rl).2.2 = 0 ∧
      countCloses (scrapeUrlsGo envOf timeOf urls rl).2.2 = 0 := by
  intro urls
  induction urls with
  | nil => intro rl; exact ⟨rfl, rfl⟩
  | cons url rest ih =>
    intro rl
    simp only [scrapeUrlsGo]
    split
    · have hrest := ih (rl.waitStep (timeOf url))
      cases hd : detectPlatform url with
      | none =>
        simpa [countOpens, countCloses, hd] using hrest
      | some pf =>
        cases pf <;>
          simpa [countOpens, countCloses, hd, List.filter_append] using hrest
    · exact ⟨rfl, rfl⟩

/-- C6 counterexample: a batch of two TikTok URLs produces the trace
`[open, navigate #1, navigate #2, close]` — a single browser session opened
once and reused for both URLs, not a fresh session per URL torn down before
the next begins. -/
theorem claim6_counterexample :
    (scrapeUrls [tiktokUrl1, tiktokUrl2] (fun _ => quietEnv) (fun _ => 0)
        getRateLimiter).2.2 =
      [.openSession, .navigate tiktokUrl1, .navigate tiktokUrl2, .closeSession] ∧
    countOpens ((scrapeUrls [tiktokUrl1, tiktokUrl2] (fun _ => quietEnv) (fun _ => 0)
        getRateLimiter).2.2) = 1 ∧
    (1 : ℕ) ≠ 2 :=
  ⟨rfl, rfl, by decide⟩

/-- C6 (amended): the batch loop `scrape_urls` opens exactly one browser
session before the loop and closes it exactly once after the loop, reusing it
for every URL of the batch; a fresh session per URL exists only on the
single-URL entry point `scrape_url`, which opens and tears down one session
per call (and none for unknown platforms). -/
theorem claim6_theorem :
    (∀ (urls : List String) (envOf : String → ScrapeEnv) (timeOf : String → ℚ)
        (rl : RateLimiter),
      countOpens (scrapeUrls urls envOf timeOf rl).2.2 = 1 ∧
      countCloses (scrapeUrls urls envOf timeOf rl).2.2 = 1) ∧
    (∀ (url : String) (env : ScrapeEnv),
      (scrapeUrl url env).2 =
        if (detectPlatform url).isSome then
          [Event.openSession, Event.navigate url, Event.closeSession]
        else []) := by
  constructor
  · intro urls envOf timeOf rl
    have h := scrapeUrlsGo_no_sessions envOf timeOf urls rl
    constructor
    · simpa [scrapeUrls, countOpens, List.filter_append] using h.1
    · simpa [scrapeUrls, countCloses, List.filter_append] using h.2
  · intro url env
    cases hd : detectPlatform url with
    | none => simp [scrapeUrl, hd]
    | some pf => cases pf <;> simp [scrapeUrl, hd]

/-- After `n` waits the request count has grown by `n`. -/
theorem applyWaits_request_count :
    ∀ (ts : List ℚ) (s : RateLimiter),
      (applyWaits ts s).request_count = s.request_count + ts.length := by
  intro ts
  induction ts with
  | nil => intro s; simp [applyWaits]
  | cons t rest ih =>
    intro s
    have hstep := ih (s.waitStep t)
    simp only [applyWaits, List.foldl] at hstep ⊢
    rw [hstep]
    simp [RateLimiter.waitStep]
    omega

/-- Calls to `wait()` never change the ceiling. -/
theorem applyWaits_max_requests :
    ∀ (ts : List ℚ) (s : RateLimiter),
      (applyWaits ts s).max_requests = s.max_requests := by
  intro ts
  induction ts with
  | nil => intro s; rfl
  | cons t rest ih =>
    intro s
    exact ih (s.waitStep t)

/-- C8: `canMakeRequest()` is true exactly while
`requestCount < maxRequests`; after `maxRequests` calls to `wait()` from a
fresh state it returns false; `reset()` zeroes the counters and (the ceiling
being positive) restores it to true; and `wait()` never rejects — every call
increments `requestCount` unconditionally. -/
theorem claim8_theorem (minD maxD : ℚ) (maxR : ℕ) (ts : List ℚ)
    (h : 0 < maxR) (hts : ts.length = maxR) :
    (∀ s : RateLimiter, s.can_make_request = true ↔ s.request_count < s.max_requests) ∧
    (∀ (s : RateLimiter) (t : ℚ),
      (s.waitStep t).request_count = s.request_count + 1) ∧
    (applyWaits ts (mkRateLimiter minD maxD maxR)).can_make_request = false ∧
    ((applyWaits ts (mkRateLimiter minD maxD maxR)).reset).can_make_request = true := by
  refine ⟨?_, ?_, ?_, ?_⟩
  · intro s
    simp [RateLimiter.can_make_request]
  · intro s t
    rfl
  · have hc := applyWaits_request_count ts (mkRateLimiter minD maxD maxR)
    have hm := applyWaits_max_requests ts (mkRateLimiter minD maxD maxR)
    simp only [RateLimiter.can_make_request]
    rw [hc, hm]
    simp [mkRateLimiter, hts]
  · have hm := applyWaits_max_requests ts (mkRateLimiter minD maxD maxR)
    simp only [RateLimiter.reset, RateLimiter.can_make_request]
    simp only [hm]
    simpa [mkRateLimiter] using h

/-- C8 witness: the limiter with its process-wide defaults (ceiling 20),
after 20 waits and after the subsequent reset. -/
theorem claim8_witness :
    (applyWaits (List.replicate 20 (0 : ℚ)) getRateLimiter).can_make_request = false ∧
    ((applyWaits (List.replicate 20 (0 : ℚ)) getRateLimiter).reset).can_make_request = true := by
  have h := claim8_theorem 3 5 20 (List.replicate 20 (0 : ℚ)) (by decide) (by simp)
  exact ⟨h.2.2.1, h.2.2.2⟩

/-- C9: a URL matching neither platform's patterns short-circuits both entry
points to a failed record with the fixed unsupported-platform error string of
that entry point and an all-zero quadruple, and no browser session event is
emitted. -/
theorem claim9_theorem (url : String) (env : ScrapeEnv)
    (h1 : isTiktokUrl url = false) (h2 : isInstagramUrl url = false) :
    scrapeUrl url env =
      ({ url := url, platform := "unknown", views := .num 0, likes := .num 0,
         comments := .num 0, shares := .num 0,
         error := some "Unsupported platform" }, []) ∧
    scrapeSingleUrl url env =
      ({ url := url, platform := "unknown", views := .num 0, likes := .num 0,
         comments := .num 0, shares := .num 0,
         error := some "Unsupported platform. Only TikTok and Instagram are supported." }, []) := by
  have hd : detectPlatform url = none := by
    simp [detectPlatform, h1, h2]
  constructor
  · simp [scrapeUrl, hd, unknownRecord, unknownErrMsg]
  · simp [scrapeSingleUrl, hd, unknownRecord, apiUnknownErrMsg]

/-- C9 witness: the short-circuit applied to `https://example.com/page`. -/
theorem claim9_witness :
    scrapeUrl plainUrl quietEnv =
      ({ url := plainUrl, platform := "unknown", views := .num 0, likes := .num 0,
         comments := .num 0, shares := .num 0,
         error := some "Unsupported platform" }, []) ∧
    scrapeSingleUrl plainUrl quietEnv =
      ({ url := plainUrl, platform := "unknown", views := .num 0, likes := .num 0,
         comments := .num 0, shares := .num 0,
         error := some "Unsupported platform. Only TikTok and Instagram are supported." }, []) :=
  claim9_theorem plainUrl quietEnv (by decide) (by decide)

end StatScraper
